import Mathlib

/-
Shallow embedding of src/Addons/TCPServer_For_Softimage/Application/Plugins/TCPServer.py.

Python strings are modelled as List Char; the shared request queue
(Runtime.requestsStack) as a List (List Char) in arrival order; the calls made into
the host application (Application.ExecuteScript, Application.ExecuteScriptCode,
Application.LogMessage) as an emitted event list; the filesystem check
os.path.exists as a Bool-valued parameter.
-/

/-- Python whitespace class, as used by str.strip with no argument and by the
regex class backslash-s: space, tab, newline, carriage return, vertical tab, form feed. -/
def pySpace (c : Char) : Bool :=
  c = ' ' || c = '\t' || c = '\n' || c = '\x0d' || c = '\x0b' || c = '\x0c'

/-- Python str.strip with no argument: remove leading and trailing whitespace. -/
def pyStrip (s : List Char) : List Char :=
  ((s.dropWhile pySpace).reverse.dropWhile pySpace).reverse

/-- Python substring containment, pat in s. -/
def containsSub (pat : List Char) : List Char → Bool
  | [] => pat.isEmpty
  | c :: rest => pat.isPrefixOf (c :: rest) || containsSub pat rest

/-- Python str.find: index of the first occurrence of pat in s, meaningful when
pat occurs in s (the source only calls find after an in containment check). -/
def findSub (pat : List Char) : List Char → Nat
  | [] => 0
  | c :: rest => if pat.isPrefixOf (c :: rest) then 0 else findSub pat rest + 1

/-- Calls made into the host application while draining the request queue. -/
inductive HostCall where
  | executeFile (path : List Char)
  | execute (code language : List Char)
  | log (message : List Char)
  | logReturn
  deriving DecidableEq

/-- Constants.languages from the source, in declared order. -/
def Constants.languages : List (List Char) :=
  ["VBScript".data, "JScript".data, "Python".data, "PythonScript".data, "PerlScript".data]

/-- re.match of the pattern built for one language tag in
DefaultStackDataRequestsHandler.processData, returning the code group on success.
The pattern is anchored at the start and reads: any whitespace, the literal tag,
any whitespace, a pipe, then the code group, a greedy dot-star. The tag is
alphabetic and the literal expected after each greedy whitespace run is not itself
a whitespace character, so the greedy scan is deterministic, and the dot of the
code group does not match a newline. -/
def reMatchTag (tag data : List Char) : Option (List Char) :=
  let s1 := data.dropWhile pySpace
  if tag.isPrefixOf s1 then
    match (s1.drop tag.length).dropWhile pySpace with
    | '|' :: rest => some (rest.takeWhile (fun c => c != '\n'))
    | _ => none
  else none

/-- The for-loop over Constants.languages in
DefaultStackDataRequestsHandler.processData: try each language tag in declared
order and stop at the first regex match, returning the matched language group and
code group. -/
def firstTagMatch : List (List Char) → List Char → Option (List Char × List Char)
  | [], _ => none
  | tag :: rest, data =>
    match reMatchTag tag data with
    | some code => some (tag, code)
    | none => firstTagMatch rest data

/-- Body of the while-loop of DefaultStackDataRequestsHandler.processData for one
popped blob: strip it, call ExecuteScript when the stripped text is an existing
path, otherwise scan the language tags and on the first match call
ExecuteScriptCode and LogMessage the return value; with no match, do nothing.
The LogMessage call in the path branch is commented out in the source. -/
def processBlob (pathExists : List Char → Bool) (blob : List Char) : List HostCall :=
  let data := pyStrip blob
  if pathExists data then
    [HostCall.executeFile data]
  else
    match firstTagMatch Constants.languages data with
    | some (language, code) => [HostCall.execute code language, HostCall.logReturn]
    | none => []

/-- EchoRequestsHandler.processData is pass: no host calls, the queue untouched. -/
def EchoRequestsHandler.processData (queue : List (List Char)) :
    List HostCall × List (List Char) :=
  ([], queue)

/-- LoggingStackDataRequestsHandler.processData: pop every queued blob in order and
LogMessage it, leaving the queue empty. -/
def LoggingStackDataRequestsHandler.processData (queue : List (List Char)) :
    List HostCall × List (List Char) :=
  (queue.map HostCall.log, [])

/-- DefaultStackDataRequestsHandler.processData: pop every queued blob in order and
dispatch it with processBlob, leaving the queue empty. -/
def DefaultStackDataRequestsHandler.processData (pathExists : List Char → Bool)
    (queue : List (List Char)) : List HostCall × List (List Char) :=
  ((queue.map (processBlob pathExists)).flatten, [])

/-- PythonStackDataRequestsHandler.processData: pop every queued blob in order,
ExecuteScriptCode it as Python and LogMessage the return value, leaving the queue
empty. -/
def PythonStackDataRequestsHandler.processData (queue : List (List Char)) :
    List HostCall × List (List Char) :=
  ((queue.map (fun blob => [HostCall.execute blob ("Python".data), HostCall.logReturn])).flatten, [])

/-- PythonStackDataRequestsHandler.requestEnd, the terminator token. -/
def PythonStackDataRequestsHandler.requestEnd : List Char := "<!RE>".data

/-- Outcome of PythonStackDataRequestsHandler.handle for one connection. -/
inductive HandleOutcome where
  | ok (blob : List Char)
  | indexError
  deriving DecidableEq

/-- The read loop of PythonStackDataRequestsHandler.handle. The first argument is
the accumulated allData list; the second is the remaining sequence of chunks
returned by self.request.recv(1024), an empty chunk meaning the peer closed.
The ok outcome carries the blob appended to Runtime.requestsStack after the loop.
The branch guarded by len(allData) greater or equal 1 evaluates allData[-2], which
in Python raises IndexError when only one chunk has been accumulated; that guard
holds after every append, so the else branch below it is dead code, kept for
fidelity. -/
def handleLoop : List (List Char) → List (List Char) → HandleOutcome
  | allData, [] => HandleOutcome.ok allData.flatten
  | allData, data :: rest =>
    if data.isEmpty then HandleOutcome.ok allData.flatten
    else if containsSub PythonStackDataRequestsHandler.requestEnd data then
      HandleOutcome.ok
        ((allData ++ [data.take (findSub PythonStackDataRequestsHandler.requestEnd data)]).flatten)
    else
      let allData2 := allData ++ [data]
      if 1 ≤ allData2.length then
        if 2 ≤ allData2.length then
          let tl := allData2[allData2.length - 2]! ++ allData2[allData2.length - 1]!
          if containsSub PythonStackDataRequestsHandler.requestEnd tl then
            HandleOutcome.ok
              ((allData2.dropLast.dropLast
                ++ [tl.take (findSub PythonStackDataRequestsHandler.requestEnd tl)]).flatten)
          else handleLoop allData2 rest
        else HandleOutcome.indexError
      else handleLoop allData2 rest

/-- PythonStackDataRequestsHandler.handle on the chunks received for a connection,
starting from an empty allData list. -/
def PythonStackDataRequestsHandler.handle (chunks : List (List Char)) : HandleOutcome :=
  handleLoop [] chunks

/-- Python values passed to the TCPServer attribute setters, which assert on the
dynamic type of the value. -/
inductive PyValue where
  | int (n : Int)
  | str (s : List Char)
  | noneV
  deriving DecidableEq

/-- The requests handler classes of the module, every one of which is a
SocketServer.BaseRequestHandler subclass, so handler_set accepts each. -/
inductive RequestsHandlerClass where
  | echo
  | loggingStack
  | defaultStack
  | pythonStack
  deriving DecidableEq

/-- The attribute state of a TCPServer instance. -/
structure TCPServerState where
  address : Option (List Char)
  port : Option Int
  handler : Option RequestsHandlerClass
  online : Bool
  deriving DecidableEq

/-- Result of an attribute setter: the updated instance, or a raised
AssertionError. -/
inductive SetOutcome where
  | ok (st : TCPServerState)
  | assertionError
  deriving DecidableEq

/-- Exceptions raised by the embedded methods. -/
inductive PyErr where
  | serverOperationError
  | socketError
  | otherError
  | programmingError
  deriving DecidableEq

/-- TCPServer.address_set: assert the value is a str or unicode (None is allowed),
then assign it. -/
def TCPServer.address_set (st : TCPServerState) (value : PyValue) : SetOutcome :=
  match value with
  | PyValue.str s => SetOutcome.ok ⟨some s, st.port, st.handler, st.online⟩
  | PyValue.noneV => SetOutcome.ok ⟨none, st.port, st.handler, st.online⟩
  | _ => SetOutcome.assertionError

/-- TCPServer.port_set: assert the value is an int (None is allowed), then assign
it. No range check is performed by the source. -/
def TCPServer.port_set (st : TCPServerState) (value : PyValue) : SetOutcome :=
  match value with
  | PyValue.int n => SetOutcome.ok ⟨st.address, some n, st.handler, st.online⟩
  | PyValue.noneV => SetOutcome.ok ⟨st.address, none, st.handler, st.online⟩
  | _ => SetOutcome.assertionError

/-- TCPServer.address_get. -/
def TCPServer.address_get (st : TCPServerState) : Option (List Char) := st.address

/-- TCPServer.port_get. -/
def TCPServer.port_get (st : TCPServerState) : Option Int := st.port

/-- TCPServer.online_get. -/
def TCPServer.online_get (st : TCPServerState) : Bool := st.online

/-- TCPServer.address_delete always raises ProgrammingError. -/
def TCPServer.address_delete (_st : TCPServerState) : PyErr := PyErr.programmingError

/-- TCPServer.port_delete always raises ProgrammingError. -/
def TCPServer.port_delete (_st : TCPServerState) : PyErr := PyErr.programmingError

/-- TCPServer.online_set always raises ProgrammingError: online is read only. -/
def TCPServer.online_set (_st : TCPServerState) (_value : PyValue) : PyErr :=
  PyErr.programmingError

/-- The body of TCPServer init: run the address setter then the port setter on the
constructor arguments (handler_set passes for every requests handler class), with
server and worker None and online False. -/
def TCPServer.init (address port : PyValue) (handler : RequestsHandlerClass) : SetOutcome :=
  match TCPServer.address_set ⟨none, none, none, false⟩ address with
  | SetOutcome.assertionError => SetOutcome.assertionError
  | SetOutcome.ok st1 =>
    match TCPServer.port_set st1 port with
    | SetOutcome.assertionError => SetOutcome.assertionError
    | SetOutcome.ok st2 => SetOutcome.ok ⟨st2.address, st2.port, some handler, st2.online⟩

/-- Result of the try-block of TCPServer.start, which constructs the
SocketServer.TCPServer and starts the worker thread: the bind either succeeds,
raises socket.error with an errno, or raises some other exception. -/
inductive BindOutcome where
  | bound
  | sockErr (errno : Int)
  | otherExc
  deriving DecidableEq

/-- Outcome of a method call: the Python return value, or a raised exception. -/
inductive CallOutcome where
  | returnedTrue
  | returnedNone
  | raised (e : PyErr)
  deriving DecidableEq

/-- LogMessage severity levels used by start and stop. -/
inductive LogLevel where
  | info
  | warning
  deriving DecidableEq

/-- The instance state, call outcome and LogMessage calls of one start or stop
call. -/
structure CallResult where
  state : TCPServerState
  outcome : CallOutcome
  logs : List LogLevel
  deriving DecidableEq

/-- TCPServer.start: raise ServerOperationError when already online; on a
successful bind go online, log at siInfo and return True; on socket.error with
errno 10048 log a warning and stay offline, returning None without raising;
re-raise socket.error on any other errno; an exception that is not a socket.error
propagates uncaught. -/
def TCPServer.start (env : BindOutcome) (st : TCPServerState) : CallResult :=
  if st.online then
    ⟨st, CallOutcome.raised PyErr.serverOperationError, []⟩
  else
    match env with
    | BindOutcome.bound =>
      ⟨⟨st.address, st.port, st.handler, true⟩, CallOutcome.returnedTrue, [LogLevel.info]⟩
    | BindOutcome.sockErr errno =>
      if errno = 10048 then ⟨st, CallOutcome.returnedNone, [LogLevel.warning]⟩
      else ⟨st, CallOutcome.raised PyErr.socketError, []⟩
    | BindOutcome.otherExc => ⟨st, CallOutcome.raised PyErr.otherError, []⟩

/-- TCPServer.stop: raise ServerOperationError when not online, otherwise shut the
server down, go offline, log at siInfo and return True. -/
def TCPServer.stop (st : TCPServerState) : CallResult :=
  if st.online then
    ⟨⟨st.address, st.port, st.handler, false⟩, CallOutcome.returnedTrue, [LogLevel.info]⟩
  else ⟨st, CallOutcome.raised PyErr.serverOperationError, []⟩

/-- Claim C1: the claim states that a payload followed by the terminator split over
two separate writes queues exactly one blob equal to the payload with the
terminator stripped. The code instead raises IndexError: after appending the first
chunk, which does not contain the whole terminator, the guard len(allData)
greater or equal 1 holds with a single element and allData[-2] is evaluated on a
one-element list. This theorem evaluates the handler at that failing input, the
payload with the first three terminator bytes in the first read and the remaining
two in the second. -/
theorem python_handle_two_write_terminator_crashes :
    PythonStackDataRequestsHandler.handle
      ["import sys\nprint(sys.maxsize)<!R".data, "E>".data] = HandleOutcome.indexError := by
  decide

/-- Claim C6: the claim states that terminator detection inspects only the chunk
just appended and the concatenation of the last two chunks, so a terminator split
across three or more chunk boundaries is not detected and reading continues. The
code never reaches that two-chunk inspection on such a stream: it raises
IndexError at the first chunk that lacks the whole terminator, because the guard
len(allData) greater or equal 1 admits a one-element list to the allData[-2]
lookup. This theorem evaluates the handler on a stream whose terminator is split
across three chunks. -/
theorem python_handle_three_chunk_terminator_crashes :
    PythonStackDataRequestsHandler.handle ["ab<".data, "!R".data, "E>".data]
      = HandleOutcome.indexError := by
  decide

/-- Claim C10: when the read loop of PythonStackDataRequestsHandler.handle ends
because of a zero-length read, the peer having closed, rather than because the
terminator was found, the accumulated chunks are joined and pushed onto the
request queue as one blob; in particular a client that connects and closes
without sending data queues the empty blob, which processData later passes to
ExecuteScriptCode as Python code. -/
theorem python_handle_peer_close_pushes_buffer (acc rest : List (List Char)) :
    handleLoop acc [] = HandleOutcome.ok acc.flatten
  ∧ handleLoop acc ([] :: rest) = HandleOutcome.ok acc.flatten
  ∧ PythonStackDataRequestsHandler.handle [] = HandleOutcome.ok []
  ∧ PythonStackDataRequestsHandler.processData [[]]
      = ([HostCall.execute [] ("Python".data), HostCall.logReturn], []) :=
  ⟨rfl, rfl, rfl, rfl⟩

/-- Witness for python_handle_peer_close_pushes_buffer at a concrete one-chunk
buffer. -/
theorem python_handle_peer_close_pushes_buffer_witness :
    handleLoop ["ab".data] [] = HandleOutcome.ok (["ab".data]).flatten
  ∧ handleLoop ["ab".data] ([] :: []) = HandleOutcome.ok (["ab".data]).flatten
  ∧ PythonStackDataRequestsHandler.handle [] = HandleOutcome.ok []
  ∧ PythonStackDataRequestsHandler.processData [[]]
      = ([HostCall.execute [] ("Python".data), HostCall.logReturn], []) :=
  python_handle_peer_close_pushes_buffer ["ab".data] []

/-- Claim C5: a drained blob whose stripped text is an existing filesystem path is
dispatched to ExecuteScript and no tag matching is attempted for it, whatever the
blob looks like; the blob JScript pipe LogMessage Pouet, when its stripped text is
not an existing path, is dispatched to ExecuteScriptCode with language JScript and
code equal to everything after the first pipe with the leading space preserved;
the tags are scanned in the fixed declared order with the first match winning. -/
theorem defaultstack_dispatch_path_and_tag (pe pe2 : List Char → Bool) (blob : List Char)
    (hpath : pe (pyStrip blob) = true)
    (hmiss : pe2 (pyStrip ("JScript | LogMessage(\"Pouet\")".data)) = false) :
    DefaultStackDataRequestsHandler.processData pe [blob]
      = ([HostCall.executeFile (pyStrip blob)], [])
  ∧ DefaultStackDataRequestsHandler.processData pe2 ["JScript | LogMessage(\"Pouet\")".data]
      = ([HostCall.execute (" LogMessage(\"Pouet\")".data) ("JScript".data),
          HostCall.logReturn], [])
  ∧ Constants.languages
      = ["VBScript".data, "JScript".data, "Python".data, "PythonScript".data,
         "PerlScript".data] := by
  refine ⟨?_, ?_, rfl⟩
  · simp [DefaultStackDataRequestsHandler.processData, processBlob, hpath]
  · have h2 : processBlob pe2 ("JScript | LogMessage(\"Pouet\")".data)
        = [HostCall.execute (" LogMessage(\"Pouet\")".data) ("JScript".data),
           HostCall.logReturn] := by
      simp only [processBlob, hmiss]
      decide
    simp [DefaultStackDataRequestsHandler.processData, h2]

/-- Witness for defaultstack_dispatch_path_and_tag with a path-recognising
environment for the first blob and a path-free environment for the tagged blob. -/
theorem defaultstack_dispatch_path_and_tag_witness :
    DefaultStackDataRequestsHandler.processData (fun _ => true) ["/tmp/MyScript.py".data]
      = ([HostCall.executeFile (pyStrip ("/tmp/MyScript.py".data))], [])
  ∧ DefaultStackDataRequestsHandler.processData (fun _ => false)
        ["JScript | LogMessage(\"Pouet\")".data]
      = ([HostCall.execute (" LogMessage(\"Pouet\")".data) ("JScript".data),
          HostCall.logReturn], [])
  ∧ Constants.languages
      = ["VBScript".data, "JScript".data, "Python".data, "PythonScript".data,
         "PerlScript".data] :=
  defaultstack_dispatch_path_and_tag (fun _ => true) (fun _ => false)
    ("/tmp/MyScript.py".data) rfl rfl

/-- Claim C8: a drained blob whose stripped text is neither an existing path nor a
match for any of the five language tag patterns produces no host call at all, no
error, and processing of the remaining queued blobs continues unchanged. -/
theorem defaultstack_unrecognized_blob_dropped (pe : List Char → Bool) (blob : List Char)
    (rest : List (List Char))
    (hpath : pe (pyStrip blob) = false)
    (htag : firstTagMatch Constants.languages (pyStrip blob) = none) :
    processBlob pe blob = []
  ∧ DefaultStackDataRequestsHandler.processData pe (blob :: rest)
      = DefaultStackDataRequestsHandler.processData pe rest := by
  have h1 : processBlob pe blob = [] := by
    simp [processBlob, hpath, htag]
  exact ⟨h1, by simp [DefaultStackDataRequestsHandler.processData, h1]⟩

/-- Witness for defaultstack_unrecognized_blob_dropped on a blob that matches no
path and no tag, with one further queued blob. -/
theorem defaultstack_unrecognized_blob_dropped_witness :
    processBlob (fun _ => false) ("hello world".data) = []
  ∧ DefaultStackDataRequestsHandler.processData (fun _ => false)
        (("hello world".data) :: [("x".data)])
      = DefaultStackDataRequestsHandler.processData (fun _ => false) [("x".data)] :=
  defaultstack_unrecognized_blob_dropped (fun _ => false) ("hello world".data)
    [("x".data)] rfl (by decide)

/-- Claim C9 counterexample: the claim states that for every handler variant the
second of two processData calls with no pushes in between leaves the queue empty.
EchoRequestsHandler.processData is pass and never drains the queue, so with a
leftover blob in the shared queue the second call leaves the queue nonempty. -/
theorem echo_processdata_leaves_queue_nonempty :
    (EchoRequestsHandler.processData
        ((EchoRequestsHandler.processData [("x".data)]).2)).2 = [("x".data)]
  ∧ ([("x".data)] : List (List Char)) ≠ [] :=
  ⟨rfl, by decide⟩

/-- Claim C9 as amended: for the three stack variants, processData drains the whole
queue, so a second call with no pushes in between performs no host call and leaves
the queue empty; EchoRequestsHandler.processData performs no host call and leaves
the queue exactly as it found it, empty only when it was already empty; no variant
can raise, every embedded processData being a total function. -/
theorem processdata_second_call_noop (pe : List Char → Bool) (q : List (List Char)) :
    EchoRequestsHandler.processData q = ([], q)
  ∧ LoggingStackDataRequestsHandler.processData
      ((LoggingStackDataRequestsHandler.processData q).2) = ([], [])
  ∧ DefaultStackDataRequestsHandler.processData pe
      ((DefaultStackDataRequestsHandler.processData pe q).2) = ([], [])
  ∧ PythonStackDataRequestsHandler.processData
      ((PythonStackDataRequestsHandler.processData q).2) = ([], []) :=
  ⟨rfl, rfl, rfl, rfl⟩

/-- Witness for processdata_second_call_noop at a concrete queue. -/
theorem processdata_second_call_noop_witness :
    EchoRequestsHandler.processData [("x".data)] = ([], [("x".data)])
  ∧ LoggingStackDataRequestsHandler.processData
      ((LoggingStackDataRequestsHandler.processData [("x".data)]).2) = ([], [])
  ∧ DefaultStackDataRequestsHandler.processData (fun _ => false)
      ((DefaultStackDataRequestsHandler.processData (fun _ => false) [("x".data)]).2)
        = ([], [])
  ∧ PythonStackDataRequestsHandler.processData
      ((PythonStackDataRequestsHandler.processData [("x".data)]).2) = ([], []) :=
  processdata_second_call_noop (fun _ => false) [("x".data)]

/-- Claim C2 counterexample: the claim states that construction with an int port
outside 0 to 65535 fails with a configuration error and that every constructed
server has its port in range. Construction with port 70000 succeeds and the
constructed instance reports port 70000, which is out of range. -/
theorem tcpserver_out_of_range_port_accepted :
    TCPServer.init (PyValue.str ("127.0.0.1".data)) (PyValue.int 70000)
        RequestsHandlerClass.echo
      = SetOutcome.ok ⟨some ("127.0.0.1".data), some 70000, some RequestsHandlerClass.echo,
          false⟩
  ∧ ¬ (70000 : Int) ≤ 65535 := by
  exact ⟨rfl, by decide⟩

/-- Claim C2 as amended: construction checks only the dynamic type of the port.
Any int port, out of range ones included, is accepted and stored unchanged; a port
value that is neither an int nor None fails the construction assertion; a None
port is accepted with no stored port. No range check is performed. -/
theorem tcpserver_port_type_check_only (n : Int) (s s2 : List Char)
    (h : RequestsHandlerClass) :
    TCPServer.init (PyValue.str s) (PyValue.int n) h
      = SetOutcome.ok ⟨some s, some n, some h, false⟩
  ∧ TCPServer.init (PyValue.str s) (PyValue.str s2) h = SetOutcome.assertionError
  ∧ TCPServer.init (PyValue.str s) PyValue.noneV h
      = SetOutcome.ok ⟨some s, none, some h, false⟩ :=
  ⟨rfl, rfl, rfl⟩

/-- Witness for tcpserver_port_type_check_only at the out-of-range port 70000. -/
theorem tcpserver_port_type_check_only_witness :
    TCPServer.init (PyValue.str ("127.0.0.1".data)) (PyValue.int 70000)
        RequestsHandlerClass.echo
      = SetOutcome.ok ⟨some ("127.0.0.1".data), some 70000,
          some RequestsHandlerClass.echo, false⟩
  ∧ TCPServer.init (PyValue.str ("127.0.0.1".data)) (PyValue.str ("abc".data))
        RequestsHandlerClass.echo = SetOutcome.assertionError
  ∧ TCPServer.init (PyValue.str ("127.0.0.1".data)) PyValue.noneV
        RequestsHandlerClass.echo
      = SetOutcome.ok ⟨some ("127.0.0.1".data), none, some RequestsHandlerClass.echo,
          false⟩ :=
  tcpserver_port_type_check_only 70000 ("127.0.0.1".data) ("abc".data)
    RequestsHandlerClass.echo

/-- Claim C3: start raises ServerOperationError exactly when the server is already
online, and then leaves the whole instance state unchanged; otherwise start never
raises ServerOperationError whatever the bind outcome; a start that returns True
leaves the server online; stop raises ServerOperationError exactly when the server
is offline; a stop that returns True leaves the server offline. -/
theorem tcpserver_start_stop_state_machine (st : TCPServerState) (env : BindOutcome) :
    ((TCPServer.start env st).outcome = CallOutcome.raised PyErr.serverOperationError
      ↔ st.online = true)
  ∧ (st.online = true → (TCPServer.start env st).state = st)
  ∧ ((TCPServer.start env st).outcome = CallOutcome.returnedTrue
      → (TCPServer.start env st).state.online = true)
  ∧ ((TCPServer.stop st).outcome = CallOutcome.raised PyErr.serverOperationError
      ↔ st.online = false)
  ∧ ((TCPServer.stop st).outcome = CallOutcome.returnedTrue
      → (TCPServer.stop st).state.online = false) := by
  obtain ⟨a, p, h, online⟩ := st
  cases online <;> rcases env with _ | errno | _ <;>
    simp [TCPServer.start, TCPServer.stop]
  by_cases herr : errno = 10048 <;> simp [herr]

/-- Witness for tcpserver_start_stop_state_machine at an offline instance and a
successful bind. -/
theorem tcpserver_start_stop_state_machine_witness :
    ((TCPServer.start BindOutcome.bound ⟨none, none, none, false⟩).outcome
        = CallOutcome.raised PyErr.serverOperationError
      ↔ (⟨none, none, none, false⟩ : TCPServerState).online = true)
  ∧ ((⟨none, none, none, false⟩ : TCPServerState).online = true
      → (TCPServer.start BindOutcome.bound ⟨none, none, none, false⟩).state
          = ⟨none, none, none, false⟩)
  ∧ ((TCPServer.start BindOutcome.bound ⟨none, none, none, false⟩).outcome
        = CallOutcome.returnedTrue
      → (TCPServer.start BindOutcome.bound ⟨none, none, none, false⟩).state.online = true)
  ∧ ((TCPServer.stop ⟨none, none, none, false⟩).outcome
        = CallOutcome.raised PyErr.serverOperationError
      ↔ (⟨none, none, none, false⟩ : TCPServerState).online = false)
  ∧ ((TCPServer.stop ⟨none, none, none, false⟩).outcome = CallOutcome.returnedTrue
      → (TCPServer.stop ⟨none, none, none, false⟩).state.online = false) :=
  tcpserver_start_stop_state_machine ⟨none, none, none, false⟩ BindOutcome.bound

/-- Claim C4: on an offline server, a bind failure that is a socket.error with
errno 10048, the port already being in use, logs a warning, raises nothing and
leaves the server offline; a socket.error with any other errno is re-raised to the
caller, and an exception that is not a socket.error propagates as well. -/
theorem tcpserver_bind_failure_handling (st : TCPServerState) (errno : Int)
    (hoff : st.online = false) :
    (TCPServer.start (BindOutcome.sockErr 10048) st).outcome = CallOutcome.returnedNone
  ∧ (TCPServer.start (BindOutcome.sockErr 10048) st).state.online = false
  ∧ (TCPServer.start (BindOutcome.sockErr 10048) st).logs = [LogLevel.warning]
  ∧ (errno ≠ 10048 →
      (TCPServer.start (BindOutcome.sockErr errno) st).outcome
        = CallOutcome.raised PyErr.socketError)
  ∧ (TCPServer.start BindOutcome.otherExc st).outcome
      = CallOutcome.raised PyErr.otherError := by
  refine ⟨?_, ?_, ?_, ?_, ?_⟩ <;> simp [TCPServer.start, hoff]
  intro hne
  simp [hne]

/-- Witness for tcpserver_bind_failure_handling at an offline instance and the
Linux errno 98 for an address already in use. -/
theorem tcpserver_bind_failure_handling_witness :
    (TCPServer.start (BindOutcome.sockErr 10048) ⟨none, none, none, false⟩).outcome
      = CallOutcome.returnedNone
  ∧ (TCPServer.start (BindOutcome.sockErr 10048) ⟨none, none, none, false⟩).state.online
      = false
  ∧ (TCPServer.start (BindOutcome.sockErr 10048) ⟨none, none, none, false⟩).logs
      = [LogLevel.warning]
  ∧ ((98 : Int) ≠ 10048 →
      (TCPServer.start (BindOutcome.sockErr 98) ⟨none, none, none, false⟩).outcome
        = CallOutcome.raised PyErr.socketError)
  ∧ (TCPServer.start BindOutcome.otherExc ⟨none, none, none, false⟩).outcome
      = CallOutcome.raised PyErr.otherError :=
  tcpserver_bind_failure_handling ⟨none, none, none, false⟩ 98 rfl

/-- Claim C7 counterexample: the claim states that any attempt to reconfigure the
address or the port of an existing instance is rejected. After a successful
construction with port 12288, the port setter accepts 1234 and the address setter
accepts a new address, mutating the instance in place. -/
theorem tcpserver_port_reconfiguration_accepted :
    TCPServer.init (PyValue.str ("127.0.0.1".data)) (PyValue.int 12288)
        RequestsHandlerClass.defaultStack
      = SetOutcome.ok ⟨some ("127.0.0.1".data), some 12288,
          some RequestsHandlerClass.defaultStack, false⟩
  ∧ TCPServer.port_set ⟨some ("127.0.0.1".data), some 12288,
        some RequestsHandlerClass.defaultStack, false⟩ (PyValue.int 1234)
      = SetOutcome.ok ⟨some ("127.0.0.1".data), some 1234,
          some RequestsHandlerClass.defaultStack, false⟩
  ∧ TCPServer.address_set ⟨some ("127.0.0.1".data), some 12288,
        some RequestsHandlerClass.defaultStack, false⟩ (PyValue.str ("0.0.0.0".data))
      = SetOutcome.ok ⟨some ("0.0.0.0".data), some 12288,
          some RequestsHandlerClass.defaultStack, false⟩ :=
  ⟨rfl, rfl, rfl⟩

/-- Claim C7 as amended: the address and port observed through the accessors are
initially the values given at construction, but both remain mutable afterwards:
the property setters accept any well-typed new value on the existing instance;
only attribute deletion and assignment to online are rejected, with
ProgrammingError. -/
theorem tcpserver_attribute_mutability (s s2 : List Char) (n m : Int)
    (h : RequestsHandlerClass) :
    TCPServer.init (PyValue.str s) (PyValue.int n) h
      = SetOutcome.ok ⟨some s, some n, some h, false⟩
  ∧ TCPServer.address_get ⟨some s, some n, some h, false⟩ = some s
  ∧ TCPServer.port_get ⟨some s, some n, some h, false⟩ = some n
  ∧ TCPServer.address_set ⟨some s, some n, some h, false⟩ (PyValue.str s2)
      = SetOutcome.ok ⟨some s2, some n, some h, false⟩
  ∧ TCPServer.port_set ⟨some s, some n, some h, false⟩ (PyValue.int m)
      = SetOutcome.ok ⟨some s, some m, some h, false⟩
  ∧ TCPServer.address_delete ⟨some s, some n, some h, false⟩ = PyErr.programmingError
  ∧ TCPServer.port_delete ⟨some s, some n, some h, false⟩ = PyErr.programmingError
  ∧ TCPServer.online_set ⟨some s, some n, some h, false⟩ (PyValue.int 1)
      = PyErr.programmingError :=
  ⟨rfl, rfl, rfl, rfl, rfl, rfl, rfl, rfl⟩

/-- Witness for tcpserver_attribute_mutability at concrete attribute values. -/
theorem tcpserver_attribute_mutability_witness :
    TCPServer.init (PyValue.str ("127.0.0.1".data)) (PyValue.int 12288)
        RequestsHandlerClass.pythonStack
      = SetOutcome.ok ⟨some ("127.0.0.1".data), some 12288,
          some RequestsHandlerClass.pythonStack, false⟩
  ∧ TCPServer.address_get ⟨some ("127.0.0.1".data), some 12288,
        some RequestsHandlerClass.pythonStack, false⟩ = some ("127.0.0.1".data)
  ∧ TCPServer.port_get ⟨some ("127.0.0.1".data), some 12288,
        some RequestsHandlerClass.pythonStack, false⟩ = some 12288
  ∧ TCPServer.address_set ⟨some ("127.0.0.1".data), some 12288,
        some RequestsHandlerClass.pythonStack, false⟩ (PyValue.str ("10.0.0.1".data))
      = SetOutcome.ok ⟨some ("10.0.0.1".data), some 12288,
          some RequestsHandlerClass.pythonStack, false⟩
  ∧ TCPServer.port_set ⟨some ("127.0.0.1".data), some 12288,
        some RequestsHandlerClass.pythonStack, false⟩ (PyValue.int 22778)
      = SetOutcome.ok ⟨some ("127.0.0.1".data), some 22778,
          some RequestsHandlerClass.pythonStack, false⟩
  ∧ TCPServer.address_delete ⟨some ("127.0.0.1".data), some 12288,
        some RequestsHandlerClass.pythonStack, false⟩ = PyErr.programmingError
  ∧ TCPServer.port_delete ⟨some ("127.0.0.1".data), some 12288,
        some RequestsHandlerClass.pythonStack, false⟩ = PyErr.programmingError
  ∧ TCPServer.online_set ⟨some ("127.0.0.1".data), some 12288,
        some RequestsHandlerClass.pythonStack, false⟩ (PyValue.int 1)
      = PyErr.programmingError :=
  tcpserver_attribute_mutability ("127.0.0.1".data) ("10.0.0.1".data) 12288 22778
    RequestsHandlerClass.pythonStack
